import Mathlib

/-!
Verification development for the gcumos custom pickler
(`src/gcumos/pickler.py`).

The Python module provides a custom serialization layer over dill: two
special-case codecs (one for parameterized generic type hints handled by
`_save_annotation` / `_load_annotation`, one for NamedTuple classes handled
by `_save_namedtuple` / `_load_namedtuple`), a save hook installed for the
duration of a packaging session (`_patch_dill`), dependency discovery
(`_catch_object`, `_get_base_module`), and a per-session workspace
(`AcumosContext`, `AcumosContextManager`, `get_context`).

This file embeds those definitions shallowly: Python objects relevant to
the codecs become inductive types, the process-wide mutable state (the
dill dispatch table, the `save` primitive, the `_contexts` registry, the
filesystem) becomes an explicit `ProcState` record threaded through the
operations, and raised exceptions become `Except PyErr` results.
-/

namespace Gcumos

/-- File paths, modeled as plain strings. -/
abbrev Path := String

/-- A flat string-keyed parameter mapping (the payload of `context.json`).
The JSON layer itself is an external collaborator, so values are kept
opaque as strings. -/
abbrev Params := List (String × String)

/-- Python exceptions raised by the embedded code. The source raises plain
`Exception`s; the spec calls the misuse ones ConfigurationError. `keyError`
models the `KeyError` that `del _contexts[name]` or `dict.pop` raises on a
missing key. -/
inductive PyErr
  | configError (msg : String)
  | keyError (key : String)
deriving DecidableEq, Repr

/-- Atomic Python types appearing inside type hints and NamedTuple field
layouts. `tyDict` and `tyList` stand for the bare `typing.Dict` and
`typing.List` origins; `named s` is any other (atomic) type. -/
inductive PyType
  | tyDict
  | tyList
  | tyInt
  | tyStr
  | named (s : String)
deriving DecidableEq, Repr

/-! ## Generic-annotation codec (`_save_annotation` / `_load_annotation`)

A `GenericMeta` annotation either has origin `typing.Dict` with two type
arguments, origin `typing.List` with one, or is a bare/base type whose
origin is not Dict or List (that case falls through to stock pickling
with the dispatch entry temporarily reverted). -/

/-- A generic type annotation value (an instance of `GenericMeta`). -/
inductive Ann
  | dictOf (k v : Ann)
  | listOf (e : Ann)
  | base (t : PyType)
deriving DecidableEq, Repr

/-- The wire form produced by `pickler.save_reduce(_load_annotation, (t, args))`:
the reconstruction arguments `(t, args)` with `args` itself pickled
recursively (each argument again an annotation). `args = none` is Python's
`None`, the bare-type case. The first component is the already-decoded
type object: for the Dict/List branch it is the bare origin, for the base
branch the whole annotation, both of which stock pickling round-trips. -/
inductive SavedAnn
  | reduce (t : Ann) (args : Option (List SavedAnn))

/-- Embeds `_save_annotation` (pickler.py lines 53-65): a Dict or List
origin is recorded together with its ordered `__args__` sequence, each
argument saved recursively; any other annotation is recorded whole with
`args = None`. -/
def saveAnn : Ann → SavedAnn
  | .dictOf k v => .reduce (.base .tyDict) (some [saveAnn k, saveAnn v])
  | .listOf e => .reduce (.base .tyList) (some [saveAnn e])
  | .base t => .reduce (.base t) none

/-- Embeds `_load_annotation` (pickler.py lines 68-75), applied to the
already-unpickled arguments: `Dict[args[0], args[1]]` when `t is Dict` and
args is not None, `List[args[0]]` when `t is List` and args is not None,
otherwise the plain `t`. Indexing a too-short args tuple would raise
IndexError, modeled as `none`. -/
def loadAnn (t : Ann) (args : Option (List Ann)) : Option Ann :=
  match t, args with
  | .base .tyDict, some (k :: v :: _) => some (.dictOf k v)
  | .base .tyDict, some _ => none
  | .base .tyList, some (e :: _) => some (.listOf e)
  | .base .tyList, some [] => none
  | t, _ => some t

mutual

/-- Unpickling of a `SavedAnn`: decode the argument list, then apply
`_load_annotation` (this is what the pickle machinery does with a
`save_reduce` record). -/
def decodeSavedAnn : SavedAnn → Option Ann
  | .reduce t none => loadAnn t none
  | .reduce t (some l) =>
    match decodeSavedList l with
    | none => none
    | some as => loadAnn t (some as)

/-- Decode each saved argument in order. -/
def decodeSavedList : List SavedAnn → Option (List Ann)
  | [] => some []
  | x :: xs =>
    match decodeSavedAnn x, decodeSavedList xs with
    | some a, some as => some (a :: as)
    | _, _ => none

end

/-- C2: for every generic container annotation value, decoding its encoding
yields a structurally identical annotation — a Dict or List origin is
recorded together with its ordered argument sequence and re-applied on
decode, and in the bare-type case (`args = None`) `_load_annotation`
returns the plain type unchanged. -/
theorem ann_encode_decode_roundtrip (a : Ann) :
    decodeSavedAnn (saveAnn a) = some a ∧
    (∀ t : Ann, loadAnn t none = some t) := by
  constructor
  · induction a with
    | dictOf k v ihk ihv =>
      simp [saveAnn, decodeSavedAnn, decodeSavedList, ihk, ihv, loadAnn]
    | listOf e ih =>
      simp [saveAnn, decodeSavedAnn, decodeSavedList, ih, loadAnn]
    | base t =>
      cases t <;> simp [saveAnn, decodeSavedAnn, loadAnn]
  · intro t
    cases t with
    | base b => cases b <;> simp [loadAnn]
    | dictOf k v => simp [loadAnn]
    | listOf e => simp [loadAnn]

/-! ## NamedTuple codec (`_save_namedtuple` / `_load_namedtuple`)

The helpers `_is_namedtuple`, `create_namedtuple`, `Empty` (from
`gcumos.modeling`) and `namedtuple_field_types` (from `gcumos.utils`) are
imported by pickler.py but their defining files are not part of the
sources here; they are modelled from the spec below. -/

/-- A structurally-typed record class: a NamedTuple type with a name and
an ordered field-name-to-field-type layout. `oid` models CPython object
identity, so that a freshly constructed type is a distinct object even
when its name and layout coincide. -/
structure NamedTupleType where
  name : String
  fields : List (String × PyType)
  oid : Nat
deriving DecidableEq, Repr

/-- Modelled from the spec: the designated sentinel/empty record `Empty`
from `gcumos.modeling`, a NamedTuple with no fields that the save hook
must exclude from the named-record codec. -/
def Empty : NamedTupleType := { name := "Empty", fields := [], oid := 0 }

/-- Modelled from the spec: `namedtuple_field_types` from `gcumos.utils`
returns the ordered field-name to field-type mapping of a NamedTuple
class. -/
def namedtuple_field_types (t : NamedTupleType) : List (String × PyType) :=
  t.fields

/-- Modelled from the spec: `create_namedtuple` from `gcumos.modeling`
builds a fresh NamedTuple type from a name and an ordered field layout;
`fresh` is the object identity of the newly created class. -/
def create_namedtuple (n : String) (fs : List (String × PyType)) (fresh : Nat) :
    NamedTupleType :=
  { name := n, fields := fs, oid := fresh }

/-- Embeds `_save_namedtuple` (pickler.py lines 78-81): the payload handed
to `save_reduce(_load_namedtuple, (obj.__name__, field_types))`. -/
def save_namedtuple (t : NamedTupleType) : String × List (String × PyType) :=
  (t.name, namedtuple_field_types t)

/-- Embeds `_load_namedtuple` (pickler.py lines 84-86): rebuild the record
type from its name and the items of the field-type mapping. -/
def load_namedtuple (n : String) (field_types : List (String × PyType))
    (fresh : Nat) : NamedTupleType :=
  create_namedtuple n (field_types.map (fun kv => (kv.1, kv.2))) fresh

/-! ## Modules and the workspace context -/

/-- A Python module object, reduced to the metadata the pickler inspects:
its `__name__` and its `__package__` (which may be `None` or the empty
string for top-level scripts). -/
structure Module where
  name : String
  package : Option String
deriving DecidableEq, Repr

/-- Truthiness of `mod.__package__`: `None` and `""` are falsy. -/
def Module.pkgTruthy (m : Module) : Bool :=
  match m.package with
  | none => false
  | some s => !(s == "")

/-- A Python object as seen by the save hook: whether it is a NamedTuple
class (and which), the `__name__` of its defining module as reported by
`inspect.getmodule` (absent when getmodule returns None), the runtime type
key used for dispatch-table lookups, and the import paths of its type's
method resolution order. -/
structure PyObj where
  nt : Option NamedTupleType
  moduleName : Option String
  typeKey : String
  mroPaths : List String
deriving DecidableEq, Repr

/-- Modelled from the spec: `_is_namedtuple` from `gcumos.modeling` tests
whether an object is a structurally-typed record class. -/
def is_namedtuple (obj : PyObj) : Bool :=
  obj.nt.isSome

/-- The filesystem, reduced to what the context touches: which directories
exist and the contents of parameter files. -/
structure FS where
  dirs : Path → Bool
  files : Path → Option Params

/-- `os.path.isdir`. -/
def FS.isdir (fs : FS) (p : Path) : Bool := fs.dirs p

/-- Writing a parameter file (`json.dump` into `open(path, 'w')`). -/
def FS.write (fs : FS) (p : Path) (c : Params) : FS :=
  { fs with files := fun q => if q = p then some c else fs.files q }

/-- Creating a directory. -/
def FS.mkdir (fs : FS) (p : Path) : FS :=
  { fs with dirs := fun q => q = p || fs.dirs q }

/-- Removal of a temporary directory tree on `TemporaryDirectory` cleanup:
the directory disappears together with any file directly beneath it. -/
def FS.rmtree (fs : FS) (p : Path) : FS :=
  { dirs := fun q => if q = p then false else fs.dirs q,
    files := fun q => if (q.toList.take (p.length + 1) == (p ++ "/").toList)
      then none else fs.files q }

/-- `_DEFAULT_MODULES` entry `gcumos`: the packaging library itself, a
package. -/
def gcumosModule : Module := { name := "gcumos", package := some "gcumos" }

/-- `_DEFAULT_MODULES` entry `dill`: the serialization dependency, a
package. -/
def dillModule : Module := { name := "dill", package := some "dill" }

/-- `_BLACKLIST` (pickler.py line 42). -/
def BLACKLIST : List String := ["builtins"]

/-- The fixed path of the parameter store beneath a context root
(pickler.py line 179). -/
def paramsPath (root : Path) : Path := root ++ "/context.json"

/-- The workspace context (`AcumosContext`), with the fields the claims
touch: the root directory, the cached `_params_path`, the discovered
module set (as a duplicate-free list) and the parameter mapping. -/
structure AcumosContext where
  root_dir : Path
  params_path : Path
  modules : List Module
  parameters : Params
deriving DecidableEq, Repr

/-- `AcumosContext.add_module` on an already-imported module object:
insert it into the module set. -/
def AcumosContext.add_module (c : AcumosContext) (m : Module) : AcumosContext :=
  if c.modules.contains m then c else { c with modules := m :: c.modules }

/-- `AcumosContext._load_params` (pickler.py lines 245-251): the file
contents if the file exists, an empty mapping otherwise. -/
def load_params (fs : FS) (p : Path) : Params :=
  match fs.files p with
  | some ps => ps
  | none => []

/-- `AcumosContext.__init__` (pickler.py lines 174-183): fail unless the
root directory exists, load parameters eagerly, then register the default
modules `gcumos` and `dill`. -/
def mkAcumosContext (fs : FS) (root : Path) : Except PyErr AcumosContext :=
  if fs.isdir root then
    let pp := paramsPath root
    let c0 : AcumosContext :=
      { root_dir := root, params_path := pp, modules := []
        parameters := load_params fs pp }
    .ok ((c0.add_module gcumosModule).add_module dillModule)
  else
    .error (.configError
      ("AcumosContext root directory " ++ root ++ " does not exist"))

/-- `AcumosContext.save_params` (pickler.py lines 253-256): dump the
parameter mapping to `_params_path`. -/
def AcumosContext.save_params (c : AcumosContext) (fs : FS) : FS :=
  fs.write c.params_path c.parameters

/-- The `packages` view (pickler.py lines 225-228): modules whose
`__package__` is truthy. -/
def AcumosContext.packages (c : AcumosContext) : List Module :=
  c.modules.filter (fun m => m.pkgTruthy)

/-- The `package_names` view. -/
def AcumosContext.package_names (c : AcumosContext) : List String :=
  c.packages.map Module.name

/-- The `scripts` view (pickler.py lines 235-238): modules whose
`__package__` is falsy and whose name is not `__main__`. -/
def AcumosContext.scripts (c : AcumosContext) : List Module :=
  (c.modules.filter (fun m => !m.pkgTruthy)).filter
    (fun m => !(m.name == "__main__"))

/-- The `script_names` view. -/
def AcumosContext.script_names (c : AcumosContext) : List String :=
  c.scripts.map Module.name

/-! ## Process-wide state: dispatch table, save primitive, registry -/

/-- The dill Pickler dispatch table, keyed by a type name and mapping to
the name of the registered save function. -/
abbrev Dispatch := String → Option String

/-- The identity of the function currently installed as
`dill.Pickler.save`. -/
inductive SaveFn
  | original
  | wrapped
deriving DecidableEq, Repr

/-- The process-wide mutable state threaded through the embedded
operations: the `_contexts` registry, `dill.Pickler.dispatch`,
`dill.Pickler.save`, the filesystem, a counter feeding fresh temporary
directory names, and the number of `_patch_dill` scopes currently
entered (0 outside any session). -/
structure ProcState where
  contexts : String → Option AcumosContext
  dispatch : Dispatch
  saveFn : SaveFn
  fs : FS
  tmpCounter : Nat
  activeSessions : Nat

/-- `_DEFAULT` (pickler.py line 43). -/
def DEFAULT : String := "default"

/-- `get_context` (pickler.py lines 287-292). -/
def get_context (s : ProcState) (n : String) : Except PyErr AcumosContext :=
  match s.contexts n with
  | some c => .ok c
  | none => .error (.configError ("AcumosContext " ++ n ++ " has not been created"))

/-- The module-level statement `dill.Pickler.dispatch[GenericMeta] =
_save_annotation` (pickler.py line 106), executed at import time. -/
def importGenericHandler (d : Dispatch) : Dispatch :=
  fun k => if k = "GenericMeta" then some "save_ann" else d k

/-- Importing `gcumos.pickler`: its only process-wide effect is the
dispatch-table registration on line 106. -/
def importPickler (s : ProcState) : ProcState :=
  { s with dispatch := importGenericHandler s.dispatch }

/-- `_revert_dispatch` entry (pickler.py line 92): `dispatch.pop(t)`,
raising `KeyError` when the key is absent, otherwise returning the
shrunk table and the popped handler. -/
def revert_dispatch_pop (d : Dispatch) (k : String) :
    Except PyErr (Dispatch × String) :=
  match d k with
  | some h => .ok (fun m => if m = k then none else d m, h)
  | none => .error (.keyError k)

/-- A full `with _revert_dispatch(t)` scope around a body that does not
itself touch the table (as in `_save_annotation`, where the body is a
stock `save_reduce`): pop the entry, run, reinstate it in the `finally`. -/
def run_revert_dispatch (s : ProcState) (k : String) :
    ProcState × Except PyErr Unit :=
  match revert_dispatch_pop s.dispatch k with
  | .error e => (s, .error e)
  | .ok (d1, h) =>
    ({ s with dispatch := fun m => if m = k then some h else d1 m }, .ok ())

/-- `_CUSTOM_DISPATCH` (pickler.py lines 109-110): empty in this
repository. -/
def CUSTOM_DISPATCH : List (String × String) := []

/-- The lazy dispatch-extension loop at the top of `_catch_object`
(pickler.py lines 142-146): when the object's runtime type is not yet in
the table, walk its mro import paths and register any `_CUSTOM_DISPATCH`
match under the runtime type. -/
def extend_dispatch (d : Dispatch) (obj : PyObj) : Dispatch :=
  if (d obj.typeKey).isSome then d
  else
    obj.mroPaths.foldl
      (fun acc p =>
        match CUSTOM_DISPATCH.find? (fun kv => kv.1 == p) with
        | some kv => fun k => if k = obj.typeKey then some kv.2 else acc k
        | none => acc)
      d

/-- `str.partition('.')[0]`: the module name up to the first dot. -/
def baseName (s : String) : String :=
  String.mk (s.toList.takeWhile (fun c => c ≠ '.'))

/-- `_get_base_module` (pickler.py lines 154-162): `None` when
`inspect.getmodule` finds no module, otherwise `sys.modules[base_name]`
(a `KeyError` when the base name is not loaded). `sys` is the
`sys.modules` mapping. -/
def get_base_module (sys : String → Option Module) (obj : PyObj) :
    Except PyErr (Option Module) :=
  match obj.moduleName with
  | none => .ok none
  | some mname =>
    match sys (baseName mname) with
    | some bm => .ok (some bm)
    | none => .error (.keyError (baseName mname))

/-- `_catch_object` (pickler.py lines 138-151): extend the dispatch table
lazily, resolve the base module, and when it exists and is not
blacklisted record it into the context returned by `get_context()` (the
default-named one). -/
def catch_object (sys : String → Option Module) (s : ProcState) (obj : PyObj) :
    Except PyErr ProcState :=
  let s1 : ProcState := { s with dispatch := extend_dispatch s.dispatch obj }
  match get_base_module sys obj with
  | .error e => .error e
  | .ok none => .ok s1
  | .ok (some bm) =>
    if BLACKLIST.contains bm.name then .ok s1
    else
      match get_context s1 DEFAULT with
      | .error e => .error e
      | .ok c =>
        .ok { s1 with contexts := fun n =>
          if n = DEFAULT then some (c.add_module bm) else s1.contexts n }

/-- What `wrapped_save` does with one object: either hand it to the
NamedTuple codec with the given payload, or fall through to the original
`pickler_save`. -/
inductive SaveAction
  | namedtupleReduce (payload : String × List (String × PyType))
  | defaultSave
deriving DecidableEq, Repr

/-- `wrapped_save` (pickler.py lines 122-129): run `_catch_object`, then
route NamedTuple classes other than the sentinel `Empty` to
`_save_namedtuple` and everything else to the original save. -/
def wrapped_save (sys : String → Option Module) (s : ProcState) (obj : PyObj) :
    Except PyErr (ProcState × SaveAction) :=
  match catch_object sys s obj with
  | .error e => .error e
  | .ok s2 =>
    match obj.nt with
    | some t =>
      if t = Empty then .ok (s2, .defaultSave)
      else .ok (s2, .namedtupleReduce (save_namedtuple t))
    | none => .ok (s2, .defaultSave)

/-! ## The packaging session (`_patch_dill`, `_DirManager`,
`AcumosContextManager`) -/

/-- The locals of a suspended `AcumosContextManager` generator: the
session name, the `_patch_dill` snapshots of the dispatch table and save
primitive, and the temporary directory owned by `_DirManager` when no
explicit root was supplied. -/
structure SessionFrame where
  sname : String
  savedDispatch : Dispatch
  savedSave : SaveFn
  tmpOwned : Option Path

/-- Fresh temporary directory names produced by `tempfile`. -/
def tmpName (n : Nat) : Path := "/tmp/acumos_" ++ toString n

/-- `del _contexts[n]` on the registry (ignoring the missing-key error,
which the callers below surface separately). -/
def removeCtx (contexts : String → Option AcumosContext) (n : String) :
    String → Option AcumosContext :=
  fun m => if m = n then none else contexts m

/-- `AcumosContextManager` up to its `yield` (pickler.py lines 259-269):
enter `_patch_dill` (snapshot the dispatch table, replace it by a deep
copy — equal as a value — and install `wrapped_save`), fail if the name
already has an active context (this raise precedes the `try`, so the
registry is untouched and `_patch_dill`'s `finally` restores the
snapshots), then run `_DirManager` and the `AcumosContext` constructor
inside the `try` and register the context. A failure inside the `try`
triggers `finally: del _contexts[name]`, which raises `KeyError` because
the name was never registered; that `KeyError` is what propagates.

On every failure path `_patch_dill`'s `finally` has already restored the
dispatch-table and save-primitive snapshots before the exception leaves
the generator, and the deep copy installed on entry is value-equal to the
snapshot, so those paths return the entry state; when a temporary
directory had been created, `TemporaryDirectory` cleanup removes it
again on the way out. -/
def openSession (s : ProcState) (rootdir : Option Path) (nm : String) :
    ProcState × Except PyErr (SessionFrame × AcumosContext) :=
  if (s.contexts nm).isSome then
    (s, .error (.configError ("AcumosContext " ++ nm ++
       " has already been created. Use get_context to access it.")))
  else
    match rootdir with
    | some d =>
      if s.fs.isdir d then
        match mkAcumosContext s.fs d with
        | .ok ctx =>
          ({ s with
              saveFn := .wrapped
              activeSessions := s.activeSessions + 1
              contexts := fun m => if m = nm then some ctx else s.contexts m },
           .ok ({ sname := nm, savedDispatch := s.dispatch
                  savedSave := s.saveFn, tmpOwned := none }, ctx))
        | .error _ => (s, .error (.keyError nm))
      else (s, .error (.keyError nm))
    | none =>
      match mkAcumosContext (s.fs.mkdir (tmpName s.tmpCounter))
          (tmpName s.tmpCounter) with
      | .ok ctx =>
        ({ s with
            saveFn := .wrapped
            activeSessions := s.activeSessions + 1
            fs := s.fs.mkdir (tmpName s.tmpCounter)
            tmpCounter := s.tmpCounter + 1
            contexts := fun m => if m = nm then some ctx else s.contexts m },
         .ok ({ sname := nm, savedDispatch := s.dispatch
                savedSave := s.saveFn, tmpOwned := some (tmpName s.tmpCounter) },
              ctx))
      | .error _ =>
        ({ s with
            fs := (s.fs.mkdir (tmpName s.tmpCounter)).rmtree (tmpName s.tmpCounter)
            tmpCounter := s.tmpCounter + 1 },
         .error (.keyError nm))

/-- The filesystem after the `context.save_params()` step of session
close: written only when the body succeeded (the success path reaches
`save_params` before the `finally`; a failing body skips it). -/
def savedFs (s : ProcState) (fr : SessionFrame) (body : Except PyErr Unit) : FS :=
  match body with
  | .ok _ =>
    match s.contexts fr.sname with
    | some c => c.save_params s.fs
    | none => s.fs
  | .error _ => s.fs

/-- The filesystem after the close path: the parameter flush of `savedFs`
followed by `TemporaryDirectory` cleanup when the session owns one. -/
def closeFs (s : ProcState) (fr : SessionFrame) (body : Except PyErr Unit) : FS :=
  match fr.tmpOwned with
  | some td => (savedFs s fr body).rmtree td
  | none => savedFs s fr body

/-- `AcumosContextManager` after its `yield` (pickler.py lines 269-272),
given the outcome of the caller's body: on success `context.save_params()`
runs first; then `_DirManager` cleans up an owned temporary directory,
`finally: del _contexts[name]` removes the context (raising `KeyError`
when absent, which then replaces the in-flight outcome), and
`_patch_dill`'s `finally` restores the dispatch table and save
primitive. -/
def closeSession (s : ProcState) (fr : SessionFrame) (body : Except PyErr Unit) :
    ProcState × Except PyErr Unit :=
  ({ s with
      fs := closeFs s fr body
      contexts := removeCtx s.contexts fr.sname
      dispatch := fr.savedDispatch
      saveFn := fr.savedSave
      activeSessions := s.activeSessions - 1 },
   if (s.contexts fr.sname).isSome then body else .error (.keyError fr.sname))

/-! ## Helper lemmas -/

/-- `_CUSTOM_DISPATCH` is empty in this repository, so the lazy
extension loop never registers anything. -/
theorem extend_dispatch_eq (d : Dispatch) (obj : PyObj) :
    extend_dispatch d obj = d := by
  unfold extend_dispatch
  split
  · rfl
  · induction obj.mroPaths with
    | nil => rfl
    | cons p ps ih => simp [CUSTOM_DISPATCH]

/-- A successful `openSession` snapshots the dispatch table and save
primitive that were in force when the session was entered. -/
theorem openSession_ok_frame {s : ProcState} {rd : Option Path} {nm : String}
    {s1 : ProcState} {fr : SessionFrame} {ctx : AcumosContext}
    (h : openSession s rd nm = (s1, .ok (fr, ctx))) :
    fr.savedDispatch = s.dispatch ∧ fr.savedSave = s.saveFn := by
  unfold openSession at h
  split at h
  · simp at h
  · split at h
    · -- an explicit root directory was supplied
      split at h
      · split at h
        · simp only [Prod.mk.injEq, Except.ok.injEq] at h
          obtain ⟨-, hfr, -⟩ := h
          subst hfr
          exact ⟨rfl, rfl⟩
        · simp at h
      · simp at h
    · -- a temporary directory is created
      split at h
      · simp only [Prod.mk.injEq, Except.ok.injEq] at h
        obtain ⟨-, hfr, -⟩ := h
        subst hfr
        exact ⟨rfl, rfl⟩
      · simp at h

/-- Reading back a just-written parameter file. -/
theorem FS.read_write (fs : FS) (p : Path) (c : Params) :
    (fs.write p c).files p = some c := by
  simp [FS.write]

/-- Writing a file does not change which directories exist. -/
theorem FS.write_dirs (fs : FS) (p : Path) (c : Params) (q : Path) :
    (fs.write p c).dirs q = fs.dirs q := rfl

/-- `add_module` leaves the parameter mapping untouched. -/
theorem add_module_parameters (c : AcumosContext) (m : Module) :
    (c.add_module m).parameters = c.parameters := by
  unfold AcumosContext.add_module
  split <;> rfl

/-- `add_module` leaves the root directory untouched. -/
theorem add_module_root (c : AcumosContext) (m : Module) :
    (c.add_module m).root_dir = c.root_dir := by
  unfold AcumosContext.add_module
  split <;> rfl

/-- `add_module` leaves the parameter-file path untouched. -/
theorem add_module_ppath (c : AcumosContext) (m : Module) :
    (c.add_module m).params_path = c.params_path := by
  unfold AcumosContext.add_module
  split <;> rfl

/-- The `AcumosContext` constructor succeeds on an existing root and loads
the parameter file eagerly. -/
theorem mk_ok_of_isdir {fs : FS} {root : Path} (h : fs.isdir root = true) :
    ∃ c, mkAcumosContext fs root = .ok c ∧
      c.root_dir = root ∧ c.params_path = paramsPath root ∧
      c.parameters = load_params fs (paramsPath root) := by
  simp only [mkAcumosContext, h, if_true]
  exact ⟨_, rfl, by simp [add_module_root], by simp [add_module_ppath],
    by simp [add_module_parameters]⟩

/-- Full characterization of a successful `openSession` with an explicit
root directory. -/
theorem openSession_some_ok {t : ProcState} {d : Path} {nm : String}
    {t1 : ProcState} {fr : SessionFrame} {ctx : AcumosContext}
    (h : openSession t (some d) nm = (t1, .ok (fr, ctx))) :
    fr = { sname := nm, savedDispatch := t.dispatch
           savedSave := t.saveFn, tmpOwned := none } ∧
    (t.contexts nm).isSome = false ∧
    t.fs.isdir d = true ∧
    mkAcumosContext t.fs d = .ok ctx ∧
    t1 = { t with
            saveFn := .wrapped
            activeSessions := t.activeSessions + 1
            contexts := fun m => if m = nm then some ctx else t.contexts m } := by
  unfold openSession at h
  split at h
  · simp at h
  · rename_i hns
    split at h
    · rename_i rd2 d2 heq
      injection heq with heq
      subst heq
      split at h
      · rename_i hdir
        split at h
        · rename_i ctx2 hmk
          simp only [Prod.mk.injEq, Except.ok.injEq] at h
          obtain ⟨ht1, hfr, hctx⟩ := h
          subst hctx
          exact ⟨hfr.symm, by simpa using hns, hdir, hmk, ht1.symm⟩
        · injection h with h1 h2
          exact Except.noConfusion h2
      · injection h with h1 h2
        exact Except.noConfusion h2
    · rename_i rd2 heq
      exact Option.noConfusion heq

/-! ## Concrete states used by the witnesses -/

/-- An empty filesystem. -/
def fs0 : FS := { dirs := fun _ => false, files := fun _ => none }

/-- A freshly started process: nothing registered, nothing patched. -/
def procState0 : ProcState :=
  { contexts := fun _ => none, dispatch := fun _ => none, saveFn := .original
    fs := fs0, tmpCounter := 0, activeSessions := 0 }

/-- A filesystem with one existing directory `/w`. -/
def fsW : FS := { dirs := fun p => p = "/w", files := fun _ => none }

/-- A post-import process state over `fsW`. -/
def stW : ProcState :=
  { contexts := fun _ => none
    dispatch := fun k => if k = "GenericMeta" then some "save_ann" else none
    saveFn := .original, fs := fsW, tmpCounter := 0, activeSessions := 0 }

/-- The context `openSession stW (some "/w") "default"` builds. -/
def ctxW : AcumosContext :=
  { root_dir := "/w", params_path := "/w/context.json"
    modules := [dillModule, gcumosModule], parameters := [] }

/-- The session frame `openSession stW (some "/w") "default"` yields. -/
def frW : SessionFrame :=
  { sname := "default", savedDispatch := stW.dispatch, savedSave := .original
    tmpOwned := none }

/-- The process state after `openSession stW (some "/w") "default"`. -/
def stW1 : ProcState := (openSession stW (some "/w") "default").1

/-- The open of the concrete `/w` session evaluates to `stW1` with the
frame `frW` and context `ctxW`. -/
theorem openSession_stW_eval :
    openSession stW (some "/w") "default" = (stW1, .ok (frW, ctxW)) := rfl

/-- The `/w` context after an in-session parameter edit. -/
def ctxW2 : AcumosContext := { ctxW with parameters := [("k", "v")] }

/-- The post-open state with that parameter edit applied through the
registry. -/
def stW2 : ProcState :=
  { stW1 with contexts := fun m => if m = "default" then some ctxW2 else none }

/-! ## The claims -/

/-- C1: for every packaging session, whether the body succeeds or raises,
on exit the process-wide dill dispatch table and the Pickler save
primitive are restored exactly to the snapshots taken when the session
was entered — in-session mutations (recorded here as an arbitrary
intermediate state `s2`) cannot be observed after exit. -/
theorem patch_dill_restores_snapshots
    (s s1 : ProcState) (rd : Option Path) (nm : String)
    (fr : SessionFrame) (ctx : AcumosContext)
    (hopen : openSession s rd nm = (s1, .ok (fr, ctx)))
    (s2 : ProcState) (body : Except PyErr Unit) :
    (closeSession s2 fr body).1.dispatch = s.dispatch ∧
    (closeSession s2 fr body).1.saveFn = s.saveFn := by
  obtain ⟨hd, hf⟩ := openSession_ok_frame hopen
  exact ⟨hd, hf⟩

/-- C1 witness: the restoration law applied to a concrete session over
`/w` whose body left the state as it was right after the open. -/
theorem patch_dill_restores_snapshots_witness :
    (closeSession stW1 frW (.ok ())).1.dispatch = stW.dispatch ∧
    (closeSession stW1 frW (.ok ())).1.saveFn = stW.saveFn :=
  patch_dill_restores_snapshots stW stW1 (some "/w") "default" frW ctxW
    (by rfl) stW1 (.ok ())

/-- Opening a session under a name that already has an active context
raises before the `try` block: the whole call is a no-op on the state
apart from the already-reverted `_patch_dill` installation. -/
theorem openSession_active (s : ProcState) (rd : Option Path) (nm : String)
    (hs : (s.contexts nm).isSome = true) :
    openSession s rd nm = (s, .error (.configError ("AcumosContext " ++ nm ++
      " has already been created. Use get_context to access it."))) := by
  unfold openSession
  rw [if_pos hs]

/-- C10: a session-open that fails because the requested name already has
an active context leaves the active-session registry unchanged — the
previously registered context stays registered and is retrievable by
name, with its module set and parameters unmodified by the failed
open. -/
theorem failed_open_preserves_registry
    (s : ProcState) (nm : String) (c : AcumosContext) (rd : Option Path)
    (hactive : s.contexts nm = some c) :
    (∃ msg, (openSession s rd nm).2 = .error (.configError msg)) ∧
    (openSession s rd nm).1.contexts = s.contexts ∧
    get_context (openSession s rd nm).1 nm = .ok c := by
  rw [openSession_active s rd nm (by simp [hactive])]
  exact ⟨⟨_, rfl⟩, rfl, by simp [get_context, hactive]⟩

/-- C10 witness: the failed open observed on a concrete registry holding
one context under `default`. -/
theorem failed_open_preserves_registry_witness :
    (∃ msg, (openSession stW1 (some "/w") "default").2
      = .error (.configError msg)) ∧
    (openSession stW1 (some "/w") "default").1.contexts = stW1.contexts ∧
    get_context (openSession stW1 (some "/w") "default").1 "default"
      = .ok ctxW :=
  failed_open_preserves_registry stW1 "default" ctxW (some "/w") (by rfl)

/-- Forward evaluation of `openSession` with an explicit, existing root
directory and a free name. -/
theorem openSession_some_eval {t : ProcState} {d : Path} {nm : String}
    {ctx : AcumosContext}
    (hfree : (t.contexts nm).isSome = false)
    (hdir : t.fs.isdir d = true)
    (hmk : mkAcumosContext t.fs d = .ok ctx) :
    openSession t (some d) nm =
      ({ t with
          saveFn := .wrapped
          activeSessions := t.activeSessions + 1
          contexts := fun m => if m = nm then some ctx else t.contexts m },
       .ok ({ sname := nm, savedDispatch := t.dispatch, savedSave := t.saveFn
              tmpOwned := none }, ctx)) := by
  unfold openSession
  split
  · rename_i hc
    rw [hfree] at hc
    exact absurd hc (by simp)
  · split
    · rename_i d2 heq
      injection heq with heq
      subst heq
      split
      · split
        · rename_i ctx2 hmk2
          rw [hmk] at hmk2
          injection hmk2 with hmk2
          subst hmk2
          rfl
        · rename_i ctx2 hmk2
          rw [hmk] at hmk2
          exact Except.noConfusion hmk2
      · rename_i hc
        exact absurd hdir hc
    · rename_i heq
      exact Option.noConfusion heq

/-- C4: opening a session under a name that already has an active context
fails with a ConfigurationError, and opening a session under the same
name after the first session has closed cleanly succeeds. -/
theorem session_name_reuse_fails_reopen_succeeds
    (s : ProcState) (nm : String) (c : AcumosContext) (rd : Option Path)
    (hactive : s.contexts nm = some c)
    (t t1 : ProcState) (d : Path) (fr : SessionFrame) (ctx : AcumosContext)
    (hopen : openSession t (some d) nm = (t1, .ok (fr, ctx))) :
    (∃ msg, (openSession s rd nm).2 = .error (.configError msg)) ∧
    (∃ fr2 ctx2, (openSession (closeSession t1 fr (.ok ())).1 (some d) nm).2
      = .ok (fr2, ctx2)) := by
  obtain ⟨hfr, hnfree, hdir, hmk, ht1⟩ := openSession_some_ok hopen
  constructor
  · exact ⟨_, by rw [openSession_active s rd nm (by simp [hactive])]⟩
  · generalize hu : (closeSession t1 fr (.ok ())).1 = u
    have hufree : (u.contexts nm).isSome = false := by
      rw [← hu]
      simp [closeSession, removeCtx, hfr]
    have hudir : u.fs.isdir d = true := by
      rw [← hu]
      simp only [closeSession, closeFs, savedFs, hfr, ht1,
        AcumosContext.save_params, FS.write, FS.isdir, if_pos]
      simpa using hdir
    obtain ⟨c2, hmk2, -, -, -⟩ := mk_ok_of_isdir hudir
    refine ⟨{ sname := nm, savedDispatch := u.dispatch
              savedSave := u.saveFn, tmpOwned := none }, c2, ?_⟩
    rw [openSession_some_eval hufree hudir hmk2]

/-- C4 witness: with a context active under `default`, a second open under
`default` fails; after the first session over `/w` closes cleanly,
reopening `default` over `/w` succeeds. -/
theorem session_name_reuse_fails_reopen_succeeds_witness :
    (∃ msg, (openSession stW1 (some "/w") "default").2
      = .error (.configError msg)) ∧
    (∃ fr2 ctx2, (openSession (closeSession stW1 frW (.ok ())).1
      (some "/w") "default").2 = .ok (fr2, ctx2)) :=
  session_name_reuse_fails_reopen_succeeds stW1 "default" ctxW (some "/w")
    (by rfl) stW stW1 "/w" frW ctxW (by rfl)

/-- C5: when a session that was successfully opened closes, the parameter
store is persisted to disk only on the success path — a session whose
body raises does not flush parameter edits — while the context is removed
from the process-wide active-session registry on both the success and the
failure path. `s2` is the state at close time and `c2` the context then
registered under the session's name (arbitrary in-session edits to its
parameters are allowed). -/
theorem close_persists_params_success_only
    (t t1 : ProcState) (d : Path) (nm : String)
    (fr : SessionFrame) (ctx : AcumosContext)
    (hopen : openSession t (some d) nm = (t1, .ok (fr, ctx)))
    (s2 : ProcState) (c2 : AcumosContext)
    (hlook : s2.contexts nm = some c2) (e : PyErr) :
    ((closeSession s2 fr (.ok ())).1.fs.files c2.params_path
        = some c2.parameters ∧
      (closeSession s2 fr (.ok ())).1.contexts nm = none ∧
      (closeSession s2 fr (.ok ())).2 = .ok ()) ∧
    ((closeSession s2 fr (.error e)).1.fs = s2.fs ∧
      (closeSession s2 fr (.error e)).1.contexts nm = none ∧
      (closeSession s2 fr (.error e)).2 = .error e) := by
  obtain ⟨hfr, -, -, -, -⟩ := openSession_some_ok hopen
  subst hfr
  refine ⟨⟨?_, ?_, ?_⟩, ?_, ?_, ?_⟩ <;>
    simp [closeSession, closeFs, savedFs, removeCtx, hlook,
      AcumosContext.save_params, FS.write]

/-- C5 witness: the close law applied to the concrete `/w` session, with
one parameter edited in-session. -/
theorem close_persists_params_success_only_witness :
    (((closeSession stW2 frW (.ok ())).1.fs.files ctxW2.params_path
        = some ctxW2.parameters ∧
      (closeSession stW2 frW (.ok ())).1.contexts "default" = none ∧
      (closeSession stW2 frW (.ok ())).2 = .ok ()) ∧
    ((closeSession stW2 frW (.error (.keyError "boom"))).1.fs = stW2.fs ∧
      (closeSession stW2 frW (.error (.keyError "boom"))).1.contexts "default"
        = none ∧
      (closeSession stW2 frW (.error (.keyError "boom"))).2
        = .error (.keyError "boom"))) :=
  close_persists_params_success_only stW stW1 "/w" "default" frW ctxW
    (by rfl) stW2 ctxW2 (by rfl) (.keyError "boom")

/-- C6 (the masking slip evaluated): with no active contexts, opening a
session with the non-existent explicit root `/missing` propagates the
`KeyError` raised by `finally: del _contexts[name]` — not the
ConfigurationError naming the missing root directory, which that
`KeyError` masks — while, as the claim states, no temporary directory is
created (the filesystem is untouched) and no context is registered under
the requested name. -/
theorem open_missing_rootdir_raises_keyerror :
    (openSession procState0 (some "/missing") "default").2
      = .error (.keyError "default") ∧
    (openSession procState0 (some "/missing") "default").1.fs
      = procState0.fs ∧
    (openSession procState0 (some "/missing") "default").1.contexts "default"
      = none :=
  ⟨rfl, rfl, rfl⟩

/-- The module inserted by `add_module` is in the resulting set. -/
theorem mem_add_module (c : AcumosContext) (m : Module) :
    m ∈ (c.add_module m).modules := by
  unfold AcumosContext.add_module
  split
  · rename_i h
    simpa using h
  · exact List.mem_cons_self ..

/-- Membership in the `packages` view, by metadata. -/
theorem mem_packages_iff (c : AcumosContext) (m : Module) :
    m ∈ c.packages ↔ m ∈ c.modules ∧ m.pkgTruthy = true := by
  simp [AcumosContext.packages, List.mem_filter]

/-- Membership in the `scripts` view, by metadata. -/
theorem mem_scripts_iff (c : AcumosContext) (m : Module) :
    m ∈ c.scripts ↔
      m ∈ c.modules ∧ m.pkgTruthy = false ∧ m.name ≠ "__main__" := by
  simp only [AcumosContext.scripts, List.mem_filter, Bool.not_eq_true',
    beq_eq_false_iff_ne, ne_eq, and_assoc]

/-- No character of a base module name is a dot. -/
theorem baseName_no_dot (s : String) : ∀ ch ∈ (baseName s).toList, ch ≠ '.' := by
  intro ch hch
  have h := List.mem_takeWhile_imp (l := s.toList) hch
  simpa using h

/-- C7: the package and script views partition the discovered modules by
metadata alone. When the save hook meets an object whose defining module
is `mname`, the module recorded is the base module registered in
`sys.modules` under the name before the first dot (so a submodule
`A.b` is recorded as `A`, whose name contains no dot); a recorded module
with a truthy parent package lands in the package view and not the script
view, one with a falsy parent package and a name other than `__main__`
lands in the script view and not the package view, and the two views of
any context state are disjoint. -/
theorem module_partition_classification
    (sys : String → Option Module) (s : ProcState) (obj : PyObj)
    (mname : String) (bm : Module) (c : AcumosContext)
    (hm : obj.moduleName = some mname)
    (hsys : sys (baseName mname) = some bm)
    (hname : bm.name = baseName mname)
    (hbl : bm.name ≠ "builtins")
    (hctx : s.contexts DEFAULT = some c) :
    ∃ s3, catch_object sys s obj = .ok s3 ∧
      ∃ c3, s3.contexts DEFAULT = some c3 ∧
        c3.modules = (c.add_module bm).modules ∧
        bm ∈ c3.modules ∧
        (∀ ch ∈ bm.name.toList, ch ≠ '.') ∧
        (bm.pkgTruthy = true → bm ∈ c3.packages ∧ bm ∉ c3.scripts) ∧
        (bm.pkgTruthy = false → bm.name ≠ "__main__" →
          bm ∈ c3.scripts ∧ bm ∉ c3.packages) ∧
        (∀ m : Module, m ∈ c3.packages → m ∉ c3.scripts) := by
  have hblc : BLACKLIST.contains bm.name = false := by
    simp [BLACKLIST, hbl]
  have hres : catch_object sys s obj = .ok
      { s with
          dispatch := extend_dispatch s.dispatch obj
          contexts := fun n => if n = DEFAULT then some (c.add_module bm)
            else s.contexts n } := by
    unfold catch_object get_base_module get_context
    simp only [hm, hsys, hblc, hctx, Bool.false_eq_true, if_false]
  refine ⟨_, hres, c.add_module bm, by simp, rfl, mem_add_module c bm,
    hname ▸ baseName_no_dot mname, ?_, ?_, ?_⟩
  · intro hp
    refine ⟨(mem_packages_iff ..).mpr ⟨mem_add_module c bm, hp⟩, ?_⟩
    intro hs
    exact absurd ((mem_scripts_iff ..).mp hs).2.1 (by simp [hp])
  · intro hp hn
    refine ⟨(mem_scripts_iff ..).mpr ⟨mem_add_module c bm, hp, hn⟩, ?_⟩
    intro hps
    exact absurd ((mem_packages_iff ..).mp hps).2 (by simp [hp])
  · intro m hmp hms
    have h1 := ((mem_packages_iff ..).mp hmp).2
    have h2 := ((mem_scripts_iff ..).mp hms).2.1
    rw [h1] at h2
    exact Bool.noConfusion h2

/-- The module `A`, a package (its `__package__` is its own name). -/
def modA : Module := { name := "A", package := some "A" }

/-- A `sys.modules` mapping holding `A`. -/
def sysA : String → Option Module :=
  fun n => if n = "A" then some modA else none

/-- An object defined in the submodule `A.b`. -/
def objAb : PyObj :=
  { nt := none, moduleName := some "A.b", typeKey := "T", mroPaths := [] }

/-- C7 witness: serializing an object from submodule `A.b` inside the
concrete `/w` session records the package `A` under its top-level
name. -/
theorem module_partition_classification_witness :
    ∃ s3, catch_object sysA stW1 objAb = .ok s3 ∧
      ∃ c3, s3.contexts DEFAULT = some c3 ∧
        c3.modules = (ctxW.add_module modA).modules ∧
        modA ∈ c3.modules ∧
        (∀ ch ∈ modA.name.toList, ch ≠ '.') ∧
        (modA.pkgTruthy = true → modA ∈ c3.packages ∧ modA ∉ c3.scripts) ∧
        (modA.pkgTruthy = false → modA.name ≠ "__main__" →
          modA ∈ c3.scripts ∧ modA ∉ c3.packages) ∧
        (∀ m : Module, m ∈ c3.packages → m ∉ c3.scripts) :=
  module_partition_classification sysA stW1 objAb "A.b" modA ctxW
    (by rfl) (by decide) (by decide) (by decide) (by rfl)

/-- C8: reconstructing a context over a root whose parameter store was
saved loads exactly the saved mapping from `<root>/context.json`, and
constructing one over a root with no such file yields an empty parameter
mapping. -/
theorem params_save_load_roundtrip
    (fs : FS) (c : AcumosContext) (root : Path)
    (hroot : c.params_path = paramsPath root)
    (hdir : fs.isdir root = true)
    (fs2 : FS) (hnofile : fs2.files (paramsPath root) = none)
    (hdir2 : fs2.isdir root = true) :
    (∃ c2, mkAcumosContext (c.save_params fs) root = .ok c2 ∧
      c2.parameters = c.parameters) ∧
    (∃ c3, mkAcumosContext fs2 root = .ok c3 ∧ c3.parameters = []) := by
  constructor
  · have hdir3 : (c.save_params fs).isdir root = true := by
      simpa [AcumosContext.save_params, FS.write, FS.isdir] using hdir
    obtain ⟨c2, hmk, -, -, hps⟩ := mk_ok_of_isdir hdir3
    refine ⟨c2, hmk, ?_⟩
    rw [hps]
    simp [load_params, AcumosContext.save_params, hroot, FS.write]
  · obtain ⟨c3, hmk, -, -, hps⟩ := mk_ok_of_isdir hdir2
    refine ⟨c3, hmk, ?_⟩
    rw [hps]
    simp [load_params, hnofile]

/-- C8 witness: the edited parameters of the concrete `/w` context
survive a save / reconstruct cycle, and a fresh `/w` root starts
empty. -/
theorem params_save_load_roundtrip_witness :
    (∃ c2, mkAcumosContext (ctxW2.save_params fsW) "/w" = .ok c2 ∧
      c2.parameters = ctxW2.parameters) ∧
    (∃ c3, mkAcumosContext fsW "/w" = .ok c3 ∧ c3.parameters = []) :=
  params_save_load_roundtrip fsW ctxW2 "/w" (by rfl) (by rfl) fsW
    (by rfl) (by rfl)

/-- C3: a structurally-typed record class other than the `Empty`
sentinel is routed by the save hook to the named-record codec, whose
payload is the type name with the ordered field layout; rebuilding a
fresh type from that payload preserves the name, the field names and
their order (indeed the full layout), even though a fresh object
identity makes the rebuilt type a distinct type object; the `Empty`
sentinel instead falls through to the default save logic. -/
theorem namedtuple_roundtrip_preserves_layout
    (sys : String → Option Module) (s : ProcState) (obj : PyObj)
    (t : NamedTupleType) (fresh : Nat)
    (hobj : obj.nt = some t) (hne : t ≠ Empty)
    (hmod : obj.moduleName = none) :
    (∃ s2, wrapped_save sys s obj
      = .ok (s2, .namedtupleReduce (t.name, t.fields))) ∧
    (load_namedtuple t.name t.fields fresh).name = t.name ∧
    (load_namedtuple t.name t.fields fresh).fields = t.fields ∧
    (fresh ≠ t.oid → load_namedtuple t.name t.fields fresh ≠ t) ∧
    (∀ obj2 : PyObj, obj2.nt = some Empty → obj2.moduleName = none →
      ∃ s3, wrapped_save sys s obj2 = .ok (s3, .defaultSave)) := by
  have hco : ∀ o : PyObj, o.moduleName = none →
      catch_object sys s o = .ok { s with dispatch := extend_dispatch s.dispatch o } := by
    intro o ho
    unfold catch_object get_base_module
    simp only [ho]
  refine ⟨⟨{ s with dispatch := extend_dispatch s.dispatch obj }, ?_⟩,
    ?_, ?_, ?_, ?_⟩
  · unfold wrapped_save
    rw [hco obj hmod]
    simp only [hobj, if_neg hne]
    rfl
  · rfl
  · simp [load_namedtuple, create_namedtuple]
  · intro hfresh heq
    exact absurd (congrArg NamedTupleType.oid heq) hfresh
  · intro obj2 hobj2 hmod2
    refine ⟨{ s with dispatch := extend_dispatch s.dispatch obj2 }, ?_⟩
    unfold wrapped_save
    rw [hco obj2 hmod2]
    simp only [hobj2, if_pos rfl, if_true]

/-- A concrete NamedTuple class with two fields. -/
def recT : NamedTupleType :=
  { name := "Rec", fields := [("x", .tyInt), ("y", .tyStr)], oid := 5 }

/-- The class `recT` as an object met by the save hook. -/
def objRec : PyObj :=
  { nt := some recT, moduleName := none, typeKey := "Rec", mroPaths := [] }

/-- C3 witness: the codec applied to the concrete two-field record
`Rec(x, y)` with a fresh identity. -/
theorem namedtuple_roundtrip_preserves_layout_witness :
    (∃ s2, wrapped_save sysA procState0 objRec
      = .ok (s2, .namedtupleReduce (recT.name, recT.fields))) ∧
    (load_namedtuple recT.name recT.fields 6).name = recT.name ∧
    (load_namedtuple recT.name recT.fields 6).fields = recT.fields ∧
    (6 ≠ recT.oid → load_namedtuple recT.name recT.fields 6 ≠ recT) ∧
    (∀ obj2 : PyObj, obj2.nt = some Empty → obj2.moduleName = none →
      ∃ s3, wrapped_save sysA procState0 obj2 = .ok (s3, .defaultSave)) :=
  namedtuple_roundtrip_preserves_layout sysA procState0 objRec recT 6
    (by rfl) (by decide) (by rfl)

/-- C9 counterexample: importing the pickler module registers the
annotation handler in the process-wide dill dispatch table (pickler.py
line 106) while no session is active — a mutation of the table outside
any Interceptor session, contradicting the claim that all mutations
funnel through an active session. -/
theorem import_mutates_dispatch_outside_session :
    procState0.activeSessions = 0 ∧
    (importPickler procState0).activeSessions = 0 ∧
    procState0.dispatch "GenericMeta" = none ∧
    (importPickler procState0).dispatch "GenericMeta" = some "save_ann" := by
  refine ⟨rfl, rfl, rfl, ?_⟩
  simp [importPickler, importGenericHandler, procState0]

/-- C9 amended: apart from the one-time import-time registration of the
annotation save function under `GenericMeta` (which touches no other
key), the modeled library operations mutate the dispatch table only while
a session is ACTIVE: a `_revert_dispatch` scope run outside a session
leaves the table exactly as it found it, and a session close restores
the table that was current when the session was opened, so the table
observed outside sessions always equals its post-import value. -/
theorem dispatch_mutations_confined_to_sessions
    (s : ProcState) (k h0 : String) (hk : s.dispatch k = some h0)
    (t t1 : ProcState) (rd : Option Path) (nm : String)
    (fr : SessionFrame) (ctx : AcumosContext)
    (hopen : openSession t rd nm = (t1, .ok (fr, ctx)))
    (s2 : ProcState) (body : Except PyErr Unit)
    (kq : String) (hkq : kq ≠ "GenericMeta") :
    (run_revert_dispatch s k).1.dispatch = s.dispatch ∧
    (closeSession s2 fr body).1.dispatch = t.dispatch ∧
    (importPickler s).dispatch kq = s.dispatch kq := by
  refine ⟨?_, (openSession_ok_frame hopen).1, ?_⟩
  · unfold run_revert_dispatch revert_dispatch_pop
    simp only [hk]
    funext m
    by_cases hmk : m = k
    · subst hmk
      simp [hk]
    · simp [hmk]
  · simp [importPickler, importGenericHandler, hkq]

/-- C9 witness: the confinement law at the concrete `/w` session, the
`GenericMeta` key and the unrelated key `other`. -/
theorem dispatch_mutations_confined_to_sessions_witness :
    (run_revert_dispatch stW "GenericMeta").1.dispatch = stW.dispatch ∧
    (closeSession stW1 frW (.ok ())).1.dispatch = stW.dispatch ∧
    (importPickler stW).dispatch "other" = stW.dispatch "other" :=
  dispatch_mutations_confined_to_sessions stW "GenericMeta" "save_ann"
    (by rfl) stW stW1 (some "/w") "default" frW ctxW (by rfl) stW1 (.ok ())
    "other" (by decide)

end Gcumos
